import Mathlib

/-!
Shallow embedding of `diagnose_auth.py`, a diagnostic script that checks a
stored authentication token, optionally probes a fresh login, and checks API
reachability.  External effects (keyring lookup, network calls, interactive
input) are supplied as explicit oracle values; the decision logic,
exception-message classification and printed output are translated directly
from the source.
-/

namespace DiagAuth

/-! ## Python value model

`get_accounts()` returns an arbitrary Python value; the script inspects it
with truthiness, `isinstance(..., dict)`, `.get(...)` and `len(...)`. -/

inductive PyVal where
  | dict (entries : List (String × PyVal))
  | list (items : List PyVal)
  | str (s : String)
  | int (n : Int)
  | bool (b : Bool)
  | noneV

/-- Python truthiness of a value. -/
def PyVal.truthy : PyVal → Bool
  | .dict es => !es.isEmpty
  | .list xs => !xs.isEmpty
  | .str s => !s.isEmpty
  | .int n => n != 0
  | .bool b => b
  | .noneV => false

/-- `isinstance(v, dict)`. -/
def PyVal.isDict : PyVal → Bool
  | .dict _ => true
  | _ => false

/-- Python `d.get(key, dflt)` (dict method; only reached on dicts in the
source, other cases yield the default). -/
def pyGet (v : PyVal) (key : String) (dflt : PyVal) : PyVal :=
  match v with
  | .dict es =>
    match es.lookup key with
    | some x => x
    | Option.none => dflt
  | _ => dflt

/-- Python `len(v)`: defined on sized values, `TypeError` otherwise. -/
def pyLen : PyVal → Option Nat
  | .dict es => some es.length
  | .list xs => some xs.length
  | .str s => some s.length
  | _ => Option.none

/-- Python type name, as it appears in CPython error messages. -/
def pyTypeName : PyVal → String
  | .dict _ => "dict"
  | .list _ => "list"
  | .str _ => "str"
  | .int _ => "int"
  | .bool _ => "bool"
  | .noneV => "NoneType"

/-- The CPython `TypeError` message produced by `len(v)` on an unsized
value: object of type X has no len(). -/
def lenTypeErrorMsg (v : PyVal) : String :=
  "object of type \x27" ++ pyTypeName v ++ "\x27 has no len()"

/-! ## Strings: lowering and substring containment

The classifiers work on `str(e).lower()` and use the Python `in` operator. -/

/-- Does `needle` occur at the start of `hay`? -/
def startsList : List Char → List Char → Bool
  | [], _ => true
  | _ :: _, [] => false
  | a :: as, b :: bs => a == b && startsList as bs

/-- Does `needle` occur anywhere inside `hay` (Python `needle in hay`)? -/
def occursAt : List Char → List Char → Bool
  | needle, [] => needle.isEmpty
  | needle, c :: rest => startsList needle (c :: rest) || occursAt needle rest

/-- Python `sub in s` on strings. -/
def strContains (s sub : String) : Bool := occursAt sub.data s.data

/-- Python `s.lower()` (ASCII lowering suffices for the matched markers). -/
def strLower (s : String) : String := String.mk (s.data.map Char.toLower)

/-! ## Exceptions and the ternary validity result -/

/-- A caught Python exception: `str(e)` and `type(e).__name__`. -/
structure Exn where
  msg : String
  typeName : String
deriving DecidableEq, Repr

/-- The ternary outcome of a validity check: Python `True` / `False` /
`None` in the source. -/
inductive Validity where
  | VALID
  | INVALID
  | RATE_LIMITED
deriving DecidableEq, Repr

/-- `"401" in e or "unauthorized" in e or "authentication" in e`
(the auth-failure test of `test_token_validity`). -/
def authMarkersTV (e : String) : Bool :=
  strContains e "401" || strContains e "unauthorized" || strContains e "authentication"

/-- `"429" in e or "rate limit" in e or "too many requests" in e`. -/
def rateMarkers (e : String) : Bool :=
  strContains e "429" || strContains e "rate limit" || strContains e "too many requests"

/-- `"401" in e or "unauthorized" in e`
(the auth-failure test of `test_fresh_login`). -/
def authMarkersFresh (e : String) : Bool :=
  strContains e "401" || strContains e "unauthorized"

/-- Result of one check: the returned classification, the account count
bound in the success branch, and the printed lines. -/
structure CheckResult where
  validity : Validity
  count : Option Nat
  lines : List String

/-- The `except Exception as e` handler of `test_token_validity`:
auth markers are tested first, then rate-limit markers, else a generic
failure; the first and last branches return `False`, the middle `None`. -/
def tvExnCase (e : Exn) : CheckResult :=
  let error_str := strLower e.msg
  if authMarkersTV error_str then
    { validity := .INVALID, count := Option.none,
      lines := ["❌ Token is EXPIRED or INVALID: " ++ e.msg] }
  else if rateMarkers error_str then
    { validity := .RATE_LIMITED, count := Option.none,
      lines := ["⚠️  RATE LIMITED (429): " ++ e.msg,
                "   This is a temporary issue - wait 30-60 minutes"] }
  else
    { validity := .INVALID, count := Option.none,
      lines := ["❌ Token test failed with error: " ++ e.msg,
                "   Error type: " ++ e.typeName] }

/-- `test_token_validity(token)`: one authenticated `get_accounts()` call
whose outcome is the oracle `outcome`; a truthy dict result counts the
`"accounts"` entry (a `len` failure raises inside the `try` and is caught
by the same handler), any other success returns `False`. -/
def test_token_validity (outcome : Except Exn PyVal) : CheckResult :=
  let intro := "\n🔍 Testing token validity..."
  let r : CheckResult :=
    match outcome with
    | .error e => tvExnCase e
    | .ok accounts =>
      if accounts.truthy && accounts.isDict then
        match pyLen (pyGet accounts "accounts" (.list [])) with
        | some account_count =>
          { validity := .VALID, count := some account_count,
            lines := ["✅ Token is VALID - Found " ++ toString account_count ++ " accounts"] }
        | Option.none =>
          tvExnCase { msg := lenTypeErrorMsg (pyGet accounts "accounts" (.list [])),
                      typeName := "TypeError" }
      else
        { validity := .INVALID, count := Option.none,
          lines := ["⚠️  Token exists but API returned unexpected format"] }
  { r with lines := intro :: r.lines }

/-- The `except Exception as e` handler of `test_fresh_login`: rate-limit
markers are tested FIRST here, then auth markers, else a generic failure. -/
def freshExnCase (e : Exn) : CheckResult :=
  let error_str := strLower e.msg
  if rateMarkers error_str then
    { validity := .RATE_LIMITED, count := Option.none,
      lines := ["❌ RATE LIMITED (429) during fresh login: " ++ e.msg,
                "   ⏰ Wait 30-60 minutes before trying again"] }
  else if authMarkersFresh error_str then
    { validity := .INVALID, count := Option.none,
      lines := ["❌ Authentication failed: " ++ e.msg,
                "   Check your credentials"] }
  else
    { validity := .INVALID, count := Option.none,
      lines := ["❌ Fresh login failed: " ++ e.msg,
                "   Error type: " ++ e.typeName] }

/-- `test_fresh_login(email, password)`: a `login(...)` call followed by a
`get_accounts()` call, both inside the same `try`; their outcomes are the
oracles `loginR` and `accountsR`. -/
def test_fresh_login (loginR : Except Exn Unit) (accountsR : Except Exn PyVal) : CheckResult :=
  let intro := "\n🔍 Testing fresh login..."
  let r : CheckResult :=
    match loginR with
    | .error e => freshExnCase e
    | .ok _ =>
      match accountsR with
      | .error e => freshExnCase e
      | .ok accounts =>
        if accounts.truthy && accounts.isDict then
          match pyLen (pyGet accounts "accounts" (.list [])) with
          | some account_count =>
            { validity := .VALID, count := some account_count,
              lines := ["✅ Fresh login WORKS - Found " ++ toString account_count ++ " accounts"] }
          | Option.none =>
            freshExnCase { msg := lenTypeErrorMsg (pyGet accounts "accounts" (.list [])),
                           typeName := "TypeError" }
        else
          { validity := .INVALID, count := Option.none,
            lines := ["⚠️  Fresh login succeeded but API returned unexpected format"] }
  { r with lines := intro :: r.lines }

/-! ## Reachability check (CHECK 3) -/

/-- Outcome of `requests.get(...)`: a response with a status code, or one of
the caught exception kinds (`Timeout`, `ConnectionError`, other). -/
inductive ReachOutcome where
  | ok (statusCode : Nat)
  | timeout
  | connectionError
  | otherError (e : Exn)

/-- An HTTP GET request as issued by the reachability check. -/
structure HttpGet where
  url : String
  timeoutSecs : Nat
deriving DecidableEq, Repr

/-- The one request `requests.get("https://api.monarchmoney.com", timeout=5)`. -/
def apiGet : HttpGet := { url := "https://api.monarchmoney.com", timeoutSecs := 5 }

/-- The report line of CHECK 3, one per outcome kind. -/
def reachLines : ReachOutcome → List String
  | .ok status => ["✅ API endpoint reachable (Status: " ++ toString status ++ ")"]
  | .timeout => ["⚠️  API endpoint timeout - network issue?"]
  | .connectionError => ["❌ Cannot connect to API - network issue?"]
  | .otherError e => ["⚠️  API connectivity check failed: " ++ e.msg]

/-- CHECK 3 as a whole: the requests it issues and the lines it prints. -/
def reachabilityCheck (o : ReachOutcome) : List HttpGet × List String :=
  ([apiGet], reachLines o)

/-- Constructor tag of a reachability outcome. -/
def reachKind : ReachOutcome → Nat
  | .ok _ => 0
  | .timeout => 1
  | .connectionError => 2
  | .otherError _ => 3

/-! ## The `main` control flow -/

/-- Oracle values for one run: the stored token (`None` or a string), the
raw interactive e-mail line, and the outcomes of the network calls each
check would make. -/
structure Env where
  timeStr : String
  token : Option String
  emailRaw : String
  freshLogin : Except Exn Unit
  freshAccounts : Except Exn PyVal
  tokenAccounts : Except Exn PyVal
  reach : ReachOutcome

/-- Observable result of one call of the `main` function: printed lines,
which probes ran, and the HTTP GETs issued by the reachability check.
(The process exit status is determined by the module entry point, see
`script_entry` below, not by `main` itself.) -/
structure RunResult where
  lines : List String
  ranTokenValidity : Bool
  ranFreshLogin : Bool
  gets : List HttpGet

/-- Python truthiness of the loaded token (`if token:`): absent or empty
strings are falsy. -/
def tokenTruthy : Option String → Bool
  | Option.none => false
  | some s => !s.isEmpty

/-- The stored token string (only used on the truthy branch). -/
def tokenStr : Option String → String
  | some s => s
  | Option.none => ""

/-- Python `s[-n:]`. -/
def strTakeRight (s : String) (n : Nat) : String :=
  String.mk (s.data.drop (s.data.length - n))

/-- Python `s.strip()`: drop whitespace at both ends. -/
def pyStrip (s : String) : String :=
  String.mk (((s.data.dropWhile Char.isWhitespace).reverse.dropWhile Char.isWhitespace).reverse)

/-- `"="*80`. -/
def banner : String := String.mk (List.replicate 80 '=')

/-- The CONCLUSION block printed after CHECK 2, selected by the validity
result (`True` / `False` / `None` in the source). -/
def conclusionLines : Validity → List String
  | .VALID =>
    ["\n✅ CONCLUSION: Token is valid and working!",
     "   → Authentication is working correctly",
     "   → Issue may be in how the dashboard scripts call the API"]
  | .INVALID =>
    ["\n❌ CONCLUSION: Token is expired or invalid",
     "   → Need to re-authenticate",
     "   → Run: python login_setup.py",
     "\n   Since web login works, this suggests:",
     "   • Token may have expired (tokens typically last 30 days)",
     "   • Token format may have changed",
     "   • API may require re-authentication"]
  | .RATE_LIMITED =>
    ["\n⏰ CONCLUSION: Rate limited - cannot determine token validity",
     "   → Wait 30-60 minutes",
     "   → Then run: python login_setup.py",
     "\n   Since web login works, this suggests:",
     "   • Too many API attempts triggered rate limiting",
     "   • Web interface may have different rate limits",
     "   • API has stricter rate limiting than web"]

/-- The Key Findings bullets on the token-present path. -/
def findingsLines : Validity → List String
  | .VALID => ["  • Token exists and is valid", "  • Authentication should work"]
  | .INVALID => ["  • Token exists but is expired/invalid", "  • Need to re-authenticate"]
  | .RATE_LIMITED => ["  • Token exists but rate limited", "  • Wait before retrying"]

/-- The RECOMMENDED ACTION line on the token-present path. -/
def recommendationLines : Validity → List String
  | .INVALID => ["→ Token expired - run: python login_setup.py"]
  | .RATE_LIMITED => ["→ Rate limited - wait 30-60 minutes, then run: python login_setup.py"]
  | .VALID => ["→ Token is valid - check dashboard scripts for other issues"]

/-- `main()`: CHECK 1 (token existence) either short-circuits to the
interactive fresh-login path and returns, or runs CHECK 2 (validity),
the conclusion block, CHECK 3 (reachability), the summary and the
recommended action.  Every print call contributes one string. -/
def main (env : Env) : RunResult :=
  let header : List String :=
    [banner, "MONARCH AUTHENTICATION DIAGNOSTIC", banner,
     "Time: " ++ env.timeStr, "",
     banner, "CHECK 1: Token Existence", banner]
  if tokenTruthy env.token then
    let token := tokenStr env.token
    let r := test_token_validity env.tokenAccounts
    { lines :=
        header ++
        ["✅ Token EXISTS in keyring",
         "   Token length: " ++ toString token.length ++ " characters",
         "   Token preview: " ++ token.take 20 ++ "..." ++ strTakeRight token 10,
         "\n" ++ banner, "CHECK 2: Token Validity", banner] ++
        r.lines ++
        conclusionLines r.validity ++
        ["\n" ++ banner, "CHECK 3: API Connectivity", banner] ++
        (reachabilityCheck env.reach).snd ++
        ["\n" ++ banner, "DIAGNOSTIC SUMMARY", banner, "\nKey Findings:"] ++
        findingsLines r.validity ++
        ["\nSince web login works:",
         "  ✅ Credentials are correct",
         "  ✅ Account is not locked",
         "  ✅ Network connectivity is fine",
         "\nPossible causes:",
         "  1. Token expiration (most likely if token exists but invalid)",
         "  2. Rate limiting from too many API attempts",
         "  3. API vs Web authentication differences",
         "  4. Token format changes in Monarch API",
         "\n" ++ banner, "RECOMMENDED ACTION", banner] ++
        recommendationLines r.validity,
      ranTokenValidity := true,
      ranFreshLogin := false,
      gets := (reachabilityCheck env.reach).fst }
  else
    let preLines : List String :=
      header ++
      ["❌ No token found in keyring",
       "   → Need to run login_setup.py",
       "",
       "Since you can log in via web browser, let\x27s test fresh login...",
       "\nEnter your Monarch email (or press Enter to skip): "]
    let email := pyStrip env.emailRaw
    if email.isEmpty then
      { lines := preLines, ranTokenValidity := false,
        ranFreshLogin := false, gets := [] }
    else
      let r := test_fresh_login env.freshLogin env.freshAccounts
      let post : List String :=
        match r.validity with
        | .VALID => ["\n✅ Fresh login successful! Run login_setup.py to save the session."]
        | .RATE_LIMITED => ["\n⏰ Rate limited - wait 30-60 minutes, then run login_setup.py"]
        | .INVALID => ["\n❌ Fresh login failed - check credentials"]
      { lines := preLines ++ r.lines ++ post,
        ranTokenValidity := false, ranFreshLogin := true, gets := [] }

/-! ## The module entry point

The script ends with
`asyncio.run(main()) if hasattr(asyncio, "run") else
 asyncio.get_event_loop().run_until_complete(main())`.
`main` is a plain synchronous `def`, so the argument `main()` is evaluated
first — the whole diagnostic runs and returns `None` — and `asyncio.run`
is then handed `None` instead of a coroutine. -/

/-- Result of the whole process: everything printed by the diagnostic, the
probe/request observables, the exception that escapes the entry point (if
any), and the resulting process exit status. -/
structure ProcResult where
  lines : List String
  ranTokenValidity : Bool
  ranFreshLogin : Bool
  gets : List HttpGet
  uncaughtExn : Option Exn
  exitCode : Nat

/-- `asyncio.run(arg)`: rejects a non-coroutine argument with
`ValueError: a coroutine was expected, got repr(arg)` before running
anything.  (The pre-3.7 fallback `run_until_complete` likewise raises a
`TypeError` on a non-awaitable; we model the `asyncio.run` branch.) -/
def asyncioRun (isCoroutine : Bool) (reprStr : String) : Option Exn :=
  if isCoroutine then Option.none
  else some { msg := "a coroutine was expected, got " ++ reprStr,
              typeName := "ValueError" }

/-- A CPython process that ends with an uncaught exception exits 1,
otherwise 0. -/
def exitCodeOf : Option Exn → Nat
  | Option.none => 0
  | some _ => 1

/-- Line 204 of the source: the call `main()` runs the diagnostic and
returns `None` (a plain `def` yields no coroutine), then `asyncio.run`
raises on that `None`; the exception is uncaught, so the process dies with
a traceback after having printed the whole diagnostic. -/
def script_entry (env : Env) : ProcResult :=
  let r := main env
  let exn := asyncioRun false "None"
  { lines := r.lines
    ranTokenValidity := r.ranTokenValidity
    ranFreshLogin := r.ranFreshLogin
    gets := r.gets
    uncaughtExn := exn
    exitCode := exitCodeOf exn }

/-! ## Helper lemmas about the exception classifiers -/

theorem data_append (a b : String) : (a ++ b).data = a.data ++ b.data := rfl

theorem tvExnCase_auth (e : Exn) (h : authMarkersTV (strLower e.msg) = true) :
    (tvExnCase e).validity = Validity.INVALID := by
  unfold tvExnCase; simp [h]

theorem tvExnCase_rate (e : Exn) (hA : authMarkersTV (strLower e.msg) = false)
    (hR : rateMarkers (strLower e.msg) = true) :
    (tvExnCase e).validity = Validity.RATE_LIMITED := by
  unfold tvExnCase; simp [hA, hR]

theorem tvExnCase_other (e : Exn) (hA : authMarkersTV (strLower e.msg) = false)
    (hR : rateMarkers (strLower e.msg) = false) :
    (tvExnCase e).validity = Validity.INVALID := by
  unfold tvExnCase; simp [hA, hR]

theorem tvExnCase_not_valid (e : Exn) : (tvExnCase e).validity ≠ Validity.VALID := by
  unfold tvExnCase
  cases hA : authMarkersTV (strLower e.msg) <;>
    cases hR : rateMarkers (strLower e.msg) <;> simp [hA, hR]

theorem freshExnCase_rate (e : Exn) (h : rateMarkers (strLower e.msg) = true) :
    (freshExnCase e).validity = Validity.RATE_LIMITED := by
  unfold freshExnCase; simp [h]

theorem freshExnCase_notrate (e : Exn) (h : rateMarkers (strLower e.msg) = false) :
    (freshExnCase e).validity = Validity.INVALID := by
  unfold freshExnCase
  cases hA : authMarkersFresh (strLower e.msg) <;> simp [h, hA]

theorem freshExnCase_not_valid (e : Exn) : (freshExnCase e).validity ≠ Validity.VALID := by
  cases hR : rateMarkers (strLower e.msg)
  · rw [freshExnCase_notrate e hR]; simp
  · rw [freshExnCase_rate e hR]; simp

theorem tv_error_validity (e : Exn) :
    (test_token_validity (Except.error e)).validity = (tvExnCase e).validity := rfl

theorem fresh_error_login_validity (e : Exn) (acc : Except Exn PyVal) :
    (test_fresh_login (Except.error e) acc).validity = (freshExnCase e).validity := rfl

theorem fresh_error_accounts_validity (e : Exn) :
    (test_fresh_login (Except.ok ()) (Except.error e)).validity = (freshExnCase e).validity := rfl

/-! ## Claims -/

/-- C1 counterexample: the exception message "401 too many requests" contains
"401", yet the fresh-login prober classifies it RATE_LIMITED (the source
tests the rate-limit markers first in `test_fresh_login`), so the claim that
a 401 message is never classified RATE_LIMITED is false as stated. -/
theorem C1_counterexample :
    strContains (strLower "401 too many requests") "401" = true ∧
    (test_fresh_login (Except.ok ())
        (Except.error ⟨"401 too many requests", "Exception"⟩)).validity =
      Validity.RATE_LIMITED := by decide

/-- C1 (amended): for every exception whose message contains "401" or
"unauthorized" (after lowering), the token-validity classifier yields
INVALID (never VALID, never RATE_LIMITED); the fresh-login prober never
yields VALID, and yields INVALID provided the message does not also contain
a rate-limit marker ("429" / "rate limit" / "too many requests") — if such
a marker is present the fresh-login prober yields RATE_LIMITED instead,
because it tests the rate-limit markers first. -/
theorem C1_amended_thm (e : Exn) (acc : Except Exn PyVal)
    (h : strContains (strLower e.msg) "401" = true ∨
         strContains (strLower e.msg) "unauthorized" = true) :
    (test_token_validity (Except.error e)).validity = Validity.INVALID ∧
    (test_fresh_login (Except.error e) acc).validity ≠ Validity.VALID ∧
    (test_fresh_login (Except.ok ()) (Except.error e)).validity ≠ Validity.VALID ∧
    (rateMarkers (strLower e.msg) = false →
      (test_fresh_login (Except.error e) acc).validity = Validity.INVALID ∧
      (test_fresh_login (Except.ok ()) (Except.error e)).validity = Validity.INVALID) ∧
    (rateMarkers (strLower e.msg) = true →
      (test_fresh_login (Except.error e) acc).validity = Validity.RATE_LIMITED ∧
      (test_fresh_login (Except.ok ()) (Except.error e)).validity = Validity.RATE_LIMITED) := by
  have hAuth : authMarkersTV (strLower e.msg) = true := by
    rcases h with h | h <;> simp [authMarkersTV, h]
  refine ⟨?_, ?_, ?_, fun hR => ⟨?_, ?_⟩, fun hR => ⟨?_, ?_⟩⟩
  · rw [tv_error_validity]; exact tvExnCase_auth e hAuth
  · rw [fresh_error_login_validity]; exact freshExnCase_not_valid e
  · rw [fresh_error_accounts_validity]; exact freshExnCase_not_valid e
  · rw [fresh_error_login_validity]; exact freshExnCase_notrate e hR
  · rw [fresh_error_accounts_validity]; exact freshExnCase_notrate e hR
  · rw [fresh_error_login_validity]; exact freshExnCase_rate e hR
  · rw [fresh_error_accounts_validity]; exact freshExnCase_rate e hR

/-- C1 witness: at the concrete message "401 Unauthorized" the hypotheses of
`C1_amended_thm` hold and both classifiers yield INVALID. -/
theorem C1_witness :
    (strContains (strLower "401 Unauthorized") "401" = true ∨
     strContains (strLower "401 Unauthorized") "unauthorized" = true) ∧
    (test_token_validity (Except.error ⟨"401 Unauthorized", "Exception"⟩)).validity =
      Validity.INVALID ∧
    (test_fresh_login (Except.ok ())
        (Except.error ⟨"401 Unauthorized", "Exception"⟩)).validity = Validity.INVALID := by
  refine ⟨Or.inl (by decide), ?_, ?_⟩
  · exact (C1_amended_thm ⟨"401 Unauthorized", "Exception"⟩ (Except.ok PyVal.noneV)
      (Or.inl (by decide))).1
  · exact ((C1_amended_thm ⟨"401 Unauthorized", "Exception"⟩ (Except.ok PyVal.noneV)
      (Or.inl (by decide))).2.2.2.1 (by decide)).2

/-- C2 counterexample: the exception message "429 unauthorized" contains
"429", yet the token-validity classifier yields INVALID (the source tests
the auth markers first in `test_token_validity`), so the claim that a 429
message always classifies RATE_LIMITED is false as stated. -/
theorem C2_counterexample :
    strContains (strLower "429 unauthorized") "429" = true ∧
    (test_token_validity (Except.error ⟨"429 unauthorized", "Exception"⟩)).validity =
      Validity.INVALID := by decide

/-- C2 (amended): for every exception whose message contains a rate-limit
marker ("429" / "rate limit" / "too many requests"), the fresh-login prober
yields RATE_LIMITED; the token-validity classifier yields RATE_LIMITED
provided the message does not also contain an auth marker
("401" / "unauthorized" / "authentication") — otherwise it yields INVALID,
because it tests the auth markers first. -/
theorem C2_amended_thm (e : Exn) (acc : Except Exn PyVal)
    (h : rateMarkers (strLower e.msg) = true) :
    (test_fresh_login (Except.error e) acc).validity = Validity.RATE_LIMITED ∧
    (test_fresh_login (Except.ok ()) (Except.error e)).validity = Validity.RATE_LIMITED ∧
    (authMarkersTV (strLower e.msg) = false →
      (test_token_validity (Except.error e)).validity = Validity.RATE_LIMITED) ∧
    (authMarkersTV (strLower e.msg) = true →
      (test_token_validity (Except.error e)).validity = Validity.INVALID) := by
  refine ⟨?_, ?_, fun hA => ?_, fun hA => ?_⟩
  · rw [fresh_error_login_validity]; exact freshExnCase_rate e h
  · rw [fresh_error_accounts_validity]; exact freshExnCase_rate e h
  · rw [tv_error_validity]; exact tvExnCase_rate e hA h
  · rw [tv_error_validity]; exact tvExnCase_auth e hA

/-- C2 witness: at the concrete message "429 Too Many Requests" the
hypotheses of `C2_amended_thm` hold and both classifiers yield
RATE_LIMITED. -/
theorem C2_witness :
    rateMarkers (strLower "429 Too Many Requests") = true ∧
    authMarkersTV (strLower "429 Too Many Requests") = false ∧
    (test_fresh_login (Except.ok ())
        (Except.error ⟨"429 Too Many Requests", "Exception"⟩)).validity =
      Validity.RATE_LIMITED ∧
    (test_token_validity (Except.error ⟨"429 Too Many Requests", "Exception"⟩)).validity =
      Validity.RATE_LIMITED := by
  refine ⟨by decide, by decide, ?_, ?_⟩
  · exact (C2_amended_thm ⟨"429 Too Many Requests", "Exception"⟩ (Except.ok PyVal.noneV)
      (by decide)).2.1
  · exact (C2_amended_thm ⟨"429 Too Many Requests", "Exception"⟩ (Except.ok PyVal.noneV)
      (by decide)).2.2.1 (by decide)

/-- C3 counterexample: on the exception message "401 rate limit" the
token-validity classifier yields INVALID whereas the fresh-login prober
yields RATE_LIMITED, so the two classifiers are not extensionally equal. -/
theorem C3_counterexample :
    (test_token_validity (Except.error ⟨"401 rate limit", "Exception"⟩)).validity =
      Validity.INVALID ∧
    (test_fresh_login (Except.ok ())
        (Except.error ⟨"401 rate limit", "Exception"⟩)).validity = Validity.RATE_LIMITED ∧
    (test_fresh_login (Except.ok ())
        (Except.error ⟨"401 rate limit", "Exception"⟩)).validity ≠
      (test_token_validity (Except.error ⟨"401 rate limit", "Exception"⟩)).validity := by
  decide

/-- C3 (amended): the token-validity classifier and the fresh-login prober
agree on every exception message that does not contain both an auth marker
("401" / "unauthorized" / "authentication") and a rate-limit marker
("429" / "rate limit" / "too many requests"); on messages containing both,
they differ (INVALID versus RATE_LIMITED) because the two functions test
the marker families in opposite orders. -/
theorem C3_amended_thm (e : Exn) (acc : Except Exn PyVal) :
    ((authMarkersTV (strLower e.msg) && rateMarkers (strLower e.msg)) = false →
      (test_fresh_login (Except.error e) acc).validity =
        (test_token_validity (Except.error e)).validity ∧
      (test_fresh_login (Except.ok ()) (Except.error e)).validity =
        (test_token_validity (Except.error e)).validity) ∧
    ((authMarkersTV (strLower e.msg) && rateMarkers (strLower e.msg)) = true →
      (test_token_validity (Except.error e)).validity = Validity.INVALID ∧
      (test_fresh_login (Except.error e) acc).validity = Validity.RATE_LIMITED ∧
      (test_fresh_login (Except.ok ()) (Except.error e)).validity = Validity.RATE_LIMITED) := by
  constructor
  · intro h
    rw [fresh_error_login_validity, fresh_error_accounts_validity, tv_error_validity]
    cases hA : authMarkersTV (strLower e.msg) <;> cases hR : rateMarkers (strLower e.msg)
    · rw [freshExnCase_notrate e hR, tvExnCase_other e hA hR]; exact ⟨rfl, rfl⟩
    · rw [freshExnCase_rate e hR, tvExnCase_rate e hA hR]; exact ⟨rfl, rfl⟩
    · rw [freshExnCase_notrate e hR, tvExnCase_auth e hA]; exact ⟨rfl, rfl⟩
    · rw [hA, hR] at h; exact absurd h (by decide)
  · intro h
    rw [Bool.and_eq_true] at h
    refine ⟨?_, ?_, ?_⟩
    · rw [tv_error_validity]; exact tvExnCase_auth e h.1
    · rw [fresh_error_login_validity]; exact freshExnCase_rate e h.2
    · rw [fresh_error_accounts_validity]; exact freshExnCase_rate e h.2

/-- C3 witness: at the concrete message "connection timeout" (no auth
marker, no rate-limit marker) the two classifiers agree, and at the
concrete message "401 rate limit" (both marker families present) they
differ as the amended claim states. -/
theorem C3_witness :
    (authMarkersTV (strLower "connection timeout") &&
      rateMarkers (strLower "connection timeout")) = false ∧
    (test_fresh_login (Except.ok ())
        (Except.error ⟨"connection timeout", "TimeoutError"⟩)).validity =
      (test_token_validity (Except.error ⟨"connection timeout", "TimeoutError"⟩)).validity ∧
    (authMarkersTV (strLower "401 rate limit") &&
      rateMarkers (strLower "401 rate limit")) = true ∧
    (test_token_validity (Except.error ⟨"401 rate limit", "Exception"⟩)).validity =
      Validity.INVALID ∧
    (test_fresh_login (Except.ok ())
        (Except.error ⟨"401 rate limit", "Exception"⟩)).validity = Validity.RATE_LIMITED := by
  refine ⟨by decide, ?_, by decide, ?_, ?_⟩
  · exact ((C3_amended_thm ⟨"connection timeout", "TimeoutError"⟩
      (Except.ok PyVal.noneV)).1 (by decide)).2
  · exact ((C3_amended_thm ⟨"401 rate limit", "Exception"⟩
      (Except.ok PyVal.noneV)).2 (by decide)).1
  · exact ((C3_amended_thm ⟨"401 rate limit", "Exception"⟩
      (Except.ok PyVal.noneV)).2 (by decide)).2.2

/-- C4: every successful call returning a dict that maps "accounts" to a
list classifies VALID, and the reported account count is the length of that
list — in both `test_token_validity` and `test_fresh_login`. -/
theorem C4_thm (es : List (String × PyVal)) (l : List PyVal)
    (h : es.lookup "accounts" = some (PyVal.list l)) :
    (test_token_validity (Except.ok (PyVal.dict es))).validity = Validity.VALID ∧
    (test_token_validity (Except.ok (PyVal.dict es))).count = some l.length ∧
    (test_fresh_login (Except.ok ()) (Except.ok (PyVal.dict es))).validity = Validity.VALID ∧
    (test_fresh_login (Except.ok ()) (Except.ok (PyVal.dict es))).count = some l.length := by
  have htr : (PyVal.dict es).truthy = true := by
    cases es with
    | nil => simp [List.lookup] at h
    | cons a as => rfl
  have hget : pyGet (PyVal.dict es) "accounts" (PyVal.list []) = PyVal.list l := by
    simp [pyGet, h]
  unfold test_token_validity test_fresh_login
  simp [htr, PyVal.isDict, hget, pyLen]

/-- C4 witness: a response `{"accounts": [1, 2, 3]}` classifies VALID with a
count of 3. -/
theorem C4_witness :
    ([("accounts", PyVal.list [PyVal.int 1, PyVal.int 2, PyVal.int 3])].lookup "accounts" =
      some (PyVal.list [PyVal.int 1, PyVal.int 2, PyVal.int 3])) ∧
    (test_token_validity (Except.ok (PyVal.dict
        [("accounts", PyVal.list [PyVal.int 1, PyVal.int 2, PyVal.int 3])]))).validity =
      Validity.VALID ∧
    (test_token_validity (Except.ok (PyVal.dict
        [("accounts", PyVal.list [PyVal.int 1, PyVal.int 2, PyVal.int 3])]))).count = some 3 := by
  refine ⟨rfl, ?_, ?_⟩
  · exact (C4_thm [("accounts", PyVal.list [PyVal.int 1, PyVal.int 2, PyVal.int 3])]
      [PyVal.int 1, PyVal.int 2, PyVal.int 3] rfl).1
  · exact (C4_thm [("accounts", PyVal.list [PyVal.int 1, PyVal.int 2, PyVal.int 3])]
      [PyVal.int 1, PyVal.int 2, PyVal.int 3] rfl).2.1

/-- C9 counterexample: `{"accounts": 5}` is a truthy dict returned without
exception, yet it classifies INVALID — `len(5)` raises a `TypeError` inside
the `try`, which the handler classifies as a generic failure — so "VALID iff
the call returns a truthy dict" is false as stated. -/
theorem C9_counterexample :
    (PyVal.dict [("accounts", PyVal.int 5)]).truthy = true ∧
    (PyVal.dict [("accounts", PyVal.int 5)]).isDict = true ∧
    (test_token_validity (Except.ok (PyVal.dict [("accounts", PyVal.int 5)]))).validity =
      Validity.INVALID ∧
    (test_fresh_login (Except.ok ())
        (Except.ok (PyVal.dict [("accounts", PyVal.int 5)]))).validity =
      Validity.INVALID := by decide

/-- C9 (amended): classification is VALID iff the call returns without
exception a truthy dict whose "accounts" entry (defaulting to the empty
list) supports `len()`; exception outcomes are never VALID; in particular a
non-empty dict lacking an "accounts" key classifies VALID with a reported
count of 0, and a successful call returning a falsy or non-dict value
classifies INVALID. -/
theorem C9_amended_thm :
    (∀ v : PyVal,
      ((test_token_validity (Except.ok v)).validity = Validity.VALID ↔
        v.truthy = true ∧ v.isDict = true ∧
        (pyLen (pyGet v "accounts" (PyVal.list []))).isSome = true) ∧
      ((test_fresh_login (Except.ok ()) (Except.ok v)).validity = Validity.VALID ↔
        v.truthy = true ∧ v.isDict = true ∧
        (pyLen (pyGet v "accounts" (PyVal.list []))).isSome = true)) ∧
    (∀ e : Exn,
      (test_token_validity (Except.error e)).validity ≠ Validity.VALID ∧
      (test_fresh_login (Except.ok ()) (Except.error e)).validity ≠ Validity.VALID) ∧
    (∀ es : List (String × PyVal), es ≠ [] → es.lookup "accounts" = Option.none →
      (test_token_validity (Except.ok (PyVal.dict es))).validity = Validity.VALID ∧
      (test_token_validity (Except.ok (PyVal.dict es))).count = some 0) ∧
    (∀ v : PyVal, v.truthy = false ∨ v.isDict = false →
      (test_token_validity (Except.ok v)).validity = Validity.INVALID ∧
      (test_fresh_login (Except.ok ()) (Except.ok v)).validity = Validity.INVALID) := by
  refine ⟨fun v => ?_, fun e => ?_, fun es hne hlk => ?_, fun v hv => ?_⟩
  · constructor
    · unfold test_token_validity
      cases htr : v.truthy with
      | false => simp [htr]
      | true =>
        cases hd : v.isDict with
        | false => simp [htr, hd]
        | true =>
          cases hl : pyLen (pyGet v "accounts" (PyVal.list [])) with
          | some n => simp [htr, hd, hl]
          | none => simp [htr, hd, hl, tvExnCase_not_valid]
    · unfold test_fresh_login
      cases htr : v.truthy with
      | false => simp [htr]
      | true =>
        cases hd : v.isDict with
        | false => simp [htr, hd]
        | true =>
          cases hl : pyLen (pyGet v "accounts" (PyVal.list [])) with
          | some n => simp [htr, hd, hl]
          | none => simp [htr, hd, hl, freshExnCase_not_valid]
  · exact ⟨tvExnCase_not_valid e, freshExnCase_not_valid e⟩
  · have htr : (PyVal.dict es).truthy = true := by
      cases es with
      | nil => exact absurd rfl hne
      | cons a as => rfl
    have hget : pyGet (PyVal.dict es) "accounts" (PyVal.list []) = PyVal.list [] := by
      simp [pyGet, hlk]
    unfold test_token_validity
    simp [htr, PyVal.isDict, hget, pyLen]
  · unfold test_token_validity test_fresh_login
    rcases hv with hv | hv <;> simp [hv]

/-- C9 witness: `{"other": 1}` is a non-empty dict without an "accounts"
key; it classifies VALID with a reported count of 0. -/
theorem C9_witness :
    ([("other", PyVal.int 1)] : List (String × PyVal)) ≠ [] ∧
    ([("other", PyVal.int 1)].lookup "accounts" = (Option.none : Option PyVal)) ∧
    (test_token_validity (Except.ok (PyVal.dict [("other", PyVal.int 1)]))).validity =
      Validity.VALID ∧
    (test_token_validity (Except.ok (PyVal.dict [("other", PyVal.int 1)]))).count = some 0 := by
  refine ⟨by simp, rfl, ?_, ?_⟩
  · exact (C9_amended_thm.2.2.1 [("other", PyVal.int 1)] (by simp) rfl).1
  · exact (C9_amended_thm.2.2.1 [("other", PyVal.int 1)] (by simp) rfl).2

/-! ## Concrete run environments for witnesses -/

/-- A baseline run environment; witnesses vary individual fields. -/
def env0 : Env :=
  { timeStr := "2026-10-12 00:00:00"
    token := Option.none
    emailRaw := ""
    freshLogin := Except.ok ()
    freshAccounts := Except.ok (PyVal.dict [("accounts", PyVal.list [])])
    tokenAccounts := Except.ok (PyVal.dict [("accounts", PyVal.list [])])
    reach := ReachOutcome.timeout }

/-- No stored token, an e-mail entered interactively. -/
def envFresh : Env := { env0 with emailRaw := "jane@example.com" }

/-- A stored token whose validity check and reachability check both fail. -/
def envErrs : Env :=
  { env0 with
      token := some "sometoken"
      tokenAccounts := Except.error ⟨"boom", "RuntimeError"⟩
      reach := ReachOutcome.connectionError }

/-- A stored token with a well-formed three-account response. -/
def envGood : Env :=
  { env0 with
      token := some "GOODTOKEN"
      tokenAccounts := Except.ok (PyVal.dict
        [("accounts", PyVal.list [PyVal.int 1, PyVal.int 2, PyVal.int 3])]) }

/-- A stored token rejected with a 401. -/
def envBad : Env :=
  { env0 with
      token := some "BADTOKEN"
      tokenAccounts := Except.error ⟨"401 Unauthorized", "Exception"⟩ }

/-- A stored token that is the empty string. -/
def envEmptyTok : Env := { env0 with token := some "" }

/-- On the falsy-token path the validity check never runs and the no-token
report is printed. -/
theorem main_no_token (env : Env) (h : tokenTruthy env.token = false) :
    (main env).ranTokenValidity = false ∧
    "❌ No token found in keyring" ∈ (main env).lines := by
  constructor
  · simp [main, h]
    split <;> rfl
  · simp [main, h]
    split <;> simp

/-- Two runs with falsy tokens that agree on every other oracle behave
identically: the stored token value is otherwise unused on that path. -/
theorem main_no_token_eq (e1 e2 : Env)
    (h1 : tokenTruthy e1.token = false) (h2 : tokenTruthy e2.token = false)
    (ht : e1.timeStr = e2.timeStr) (he : e1.emailRaw = e2.emailRaw)
    (hl : e1.freshLogin = e2.freshLogin) (ha : e1.freshAccounts = e2.freshAccounts) :
    main e1 = main e2 := by
  simp [main, h1, h2, ht, he, hl, ha]

/-- C5: whenever the credential store yields no (truthy) token, the run
never attempts the token-validity check and prints the no-token report that
leads into the fresh-login path; conversely, whenever the fresh-login
prober ran, the loaded token was absent (falsy) and the validity check did
not run. -/
theorem C5_thm :
    (∀ env : Env, tokenTruthy env.token = false →
      (main env).ranTokenValidity = false ∧
      "❌ No token found in keyring" ∈ (main env).lines) ∧
    (∀ env : Env, (main env).ranFreshLogin = true →
      tokenTruthy env.token = false ∧ (main env).ranTokenValidity = false) := by
  constructor
  · intro env h
    exact ⟨(main_no_token env h).1, (main_no_token env h).2⟩
  · intro env h
    cases hT : tokenTruthy env.token
    · exact ⟨rfl, (main_no_token env hT).1⟩
    · exfalso
      simp [main, hT] at h

/-- C5 witness: with no stored token and an e-mail entered, the fresh-login
prober runs and the validity check does not. -/
theorem C5_witness :
    tokenTruthy envFresh.token = false ∧
    (main envFresh).ranTokenValidity = false ∧
    (main envFresh).ranFreshLogin = true ∧
    "❌ No token found in keyring" ∈ (main envFresh).lines := by
  refine ⟨rfl, ?_, by decide, ?_⟩
  · exact (C5_thm.2 envFresh (by decide)).2
  · exact (C5_thm.1 envFresh rfl).2

/-- C6 (code bug): the claim — and the spec, "Exit code is always 0" — is
what the author intended, but the entry point breaks it: `main` is a plain
synchronous function, so `asyncio.run(main())` evaluates `main()` (the
whole diagnostic runs and returns `None`) and then raises an uncaught
`ValueError: a coroutine was expected, got None`.  Every run therefore
exits 1, never 0, after printing the complete diagnostic — shown for all
runs, at the simplest failing input `env0` (no stored token, e-mail prompt
skipped), and at `envErrs`, where the in-check failures are indeed confined
to their checks (CHECK 3 and the recommendation are still printed) yet the
process still dies at the entry point. -/
theorem C6_thm :
    (∀ env : Env,
      (script_entry env).exitCode = 1 ∧
      (script_entry env).uncaughtExn =
        some { msg := "a coroutine was expected, got None", typeName := "ValueError" } ∧
      (script_entry env).lines = (main env).lines) ∧
    (script_entry env0).exitCode = 1 ∧
    tokenTruthy envErrs.token = true ∧
    "CHECK 3: API Connectivity" ∈ (script_entry envErrs).lines ∧
    "RECOMMENDED ACTION" ∈ (script_entry envErrs).lines := by
  refine ⟨fun env => ⟨rfl, rfl, rfl⟩, rfl, by decide, by decide, by decide⟩

/-- C7: on the token-present path the printed conclusion and the final
recommended action are selected by the validity result: VALID prints the
"valid and working" conclusion and the check-dashboard-scripts
recommendation; INVALID prints the "expired or invalid" conclusion and the
run-login_setup.py recommendation; RATE_LIMITED prints the rate-limited
conclusion and the wait-then-retry recommendation. -/
theorem C7_thm (env : Env) (h : tokenTruthy env.token = true) :
    ((test_token_validity env.tokenAccounts).validity = Validity.VALID →
      "\n✅ CONCLUSION: Token is valid and working!" ∈ (main env).lines ∧
      "→ Token is valid - check dashboard scripts for other issues" ∈ (main env).lines) ∧
    ((test_token_validity env.tokenAccounts).validity = Validity.INVALID →
      "\n❌ CONCLUSION: Token is expired or invalid" ∈ (main env).lines ∧
      "→ Token expired - run: python login_setup.py" ∈ (main env).lines) ∧
    ((test_token_validity env.tokenAccounts).validity = Validity.RATE_LIMITED →
      "\n⏰ CONCLUSION: Rate limited - cannot determine token validity" ∈ (main env).lines ∧
      "→ Rate limited - wait 30-60 minutes, then run: python login_setup.py"
        ∈ (main env).lines) := by
  refine ⟨fun hv => ?_, fun hv => ?_, fun hv => ?_⟩ <;>
    simp [main, h, hv, conclusionLines, recommendationLines]

/-- C7 witness: token "GOODTOKEN" with response `{"accounts": [1, 2, 3]}`
prints the "valid and working" conclusion; token "BADTOKEN" with a
"401 Unauthorized" exception prints the "expired or invalid" conclusion. -/
theorem C7_witness :
    tokenTruthy envGood.token = true ∧
    (test_token_validity envGood.tokenAccounts).validity = Validity.VALID ∧
    "\n✅ CONCLUSION: Token is valid and working!" ∈ (main envGood).lines ∧
    tokenTruthy envBad.token = true ∧
    (test_token_validity envBad.tokenAccounts).validity = Validity.INVALID ∧
    "\n❌ CONCLUSION: Token is expired or invalid" ∈ (main envBad).lines := by
  refine ⟨by decide, by decide, ?_, by decide, by decide, ?_⟩
  · exact ((C7_thm envGood (by decide)).1 (by decide)).1
  · exact ((C7_thm envBad (by decide)).2.1 (by decide)).1

/-- C10: a stored token equal to the empty string is handled exactly like an
absent token: the run reports no token found, never attempts the validity
check, and behaves identically to the same run with no stored token. -/
theorem C10_thm (env : Env) (h : env.token = some "") :
    "❌ No token found in keyring" ∈ (main env).lines ∧
    (main env).ranTokenValidity = false ∧
    main env = main { env with token := Option.none } := by
  have hT : tokenTruthy env.token = false := by rw [h]; rfl
  exact ⟨(main_no_token env hT).2, (main_no_token env hT).1,
    main_no_token_eq env { env with token := Option.none } hT rfl rfl rfl rfl rfl⟩

/-- C10 witness: the empty-string token run reports no token, skips the
validity check and equals the run with no token at all. -/
theorem C10_witness :
    envEmptyTok.token = some "" ∧
    "❌ No token found in keyring" ∈ (main envEmptyTok).lines ∧
    (main envEmptyTok).ranTokenValidity = false ∧
    main envEmptyTok = main { envEmptyTok with token := Option.none } := by
  refine ⟨rfl, ?_, ?_, ?_⟩
  · exact (C10_thm envEmptyTok rfl).1
  · exact (C10_thm envEmptyTok rfl).2.1
  · exact (C10_thm envEmptyTok rfl).2.2

/-! ## Distinguishability of the reachability reports -/

/-- Characters 0 and 8 of the first report line. -/
def lineSig (ls : List String) : Option Char × Option Char :=
  match ls with
  | l :: _ => (l.data.get? 0, l.data.get? 8)
  | [] => (Option.none, Option.none)

/-- The expected signature of each outcome kind. -/
def sigOfKind : Nat → Option Char × Option Char
  | 0 => (some '✅', some 'd')
  | 1 => (some '⚠', some 'e')
  | 2 => (some '❌', some ' ')
  | _ => (some '⚠', some 'c')

theorem reach_sig (o : ReachOutcome) : lineSig (reachLines o) = sigOfKind (reachKind o) := by
  cases o with
  | timeout => decide
  | connectionError => decide
  | ok s =>
    show lineSig ["✅ API endpoint reachable (Status: " ++ toString s ++ ")"] = sigOfKind 0
    simp only [lineSig, data_append, List.append_assoc]
    rw [List.get?_append (by decide), List.get?_append (by decide)]
    decide
  | otherError e =>
    show lineSig ["⚠️  API connectivity check failed: " ++ e.msg] = sigOfKind 3
    simp only [lineSig, data_append]
    rw [List.get?_append (by decide), List.get?_append (by decide)]
    decide

/-- C8: the reachability check issues exactly one GET, to the fixed base URL
with a 5-second timeout, and its four outcome kinds (HTTP success, timeout,
connection failure, other failure) produce four mutually distinguishable
reports. -/
theorem C8_thm :
    (∀ o : ReachOutcome, (reachabilityCheck o).fst = [apiGet]) ∧
    apiGet.url = "https://api.monarchmoney.com" ∧
    apiGet.timeoutSecs = 5 ∧
    (∀ o o' : ReachOutcome,
      (reachabilityCheck o).snd = (reachabilityCheck o').snd → reachKind o = reachKind o') := by
  refine ⟨fun o => rfl, rfl, rfl, fun o o' h => ?_⟩
  have h2 : sigOfKind (reachKind o) = sigOfKind (reachKind o') := by
    rw [← reach_sig o, ← reach_sig o']
    exact congrArg lineSig h
  cases o <;> cases o' <;> simp only [reachKind] at h2 ⊢ <;> revert h2 <;> decide

/-- C8 witness: instantiating the report-distinguishability at the timeout
outcome, whose report is the fixed timeout line. -/
theorem C8_witness :
    (reachabilityCheck ReachOutcome.timeout).fst = [apiGet] ∧
    (reachabilityCheck ReachOutcome.timeout).snd =
      ["⚠️  API endpoint timeout - network issue?"] ∧
    reachKind ReachOutcome.timeout = reachKind ReachOutcome.timeout :=
  ⟨C8_thm.1 ReachOutcome.timeout, rfl,
   C8_thm.2.2.2 ReachOutcome.timeout ReachOutcome.timeout rfl⟩

end DiagAuth
